import Mathlib

/-
Verification of the energy-demand forecasting pipeline (`EnergyPredictor`)
of the AI-optimized-microgrid repository.

The embedding below is a shallow model of `src/models/predictor.py`:

* timestamps are POSIX seconds (`Int`), with the hour / weekday / month
  accessors of Python `datetime` made explicit;
* numeric values are rationals (`ℚ`);
* the external pieces that the code calls but does not implement
  (the sklearn estimators, the `StandardScaler` fitting step, the
  train/test shuffling, the HTTP weather call) are parameters of the
  corresponding functions, while everything written in the repository
  itself (feature engineering, column selection, the scaler transform
  arithmetic, the R2 formula, model selection, the forecast loop,
  artifact loading and the default-weather fallback) is translated
  directly.
-/

namespace Microgrid

/-- Hour of day (0-23) of a timestamp. Timestamps are POSIX seconds
(`Int`) in the proleptic Gregorian calendar, mirroring Python `datetime`
values; the accessors live in a `DateTime` namespace. This one is
`datetime.hour` / pandas `dt.hour`. -/
def DateTime.hour (t : Int) : Int := t % 86400 / 3600

/-- Weekday with Monday = 0 .. Sunday = 6, as returned by both
`datetime.weekday()` (used in `EnergyPredictor.predict`) and pandas
`dt.dayofweek` (used in `EnergyPredictor.train`); day 0 of the epoch
(1970-01-01) was a Thursday, weekday 3. -/
def DateTime.dayofweek (t : Int) : Int := (t / 86400 + 3) % 7

/-- Calendar month (1-12) of a POSIX timestamp, by the standard
civil-from-days conversion for the proleptic Gregorian calendar; this is
the value `datetime.month` / pandas `dt.month` yield. -/
def DateTime.month (t : Int) : Int :=
  let z := t / 86400 + 719468
  let era := z / 146097
  let doe := z - era * 146097
  let yoe := (doe - doe / 1460 + doe / 36524 - doe / 146096) / 365
  let doy := doe - (365 * yoe + yoe / 4 - yoe / 100)
  let mp := (5 * doy + 2) / 153
  mp + (if mp < 10 then 3 else -9)

/-- The season formula of `predictor.py` lines 69 and 151:
`month % 12 // 3 + 1`. -/
def season (m : Int) : Int := m % 12 / 3 + 1

/-- Weather snapshot as produced by `WeatherAPI.get_current_weather` /
`EnergyPredictor.get_weather_data`: the four fields
temperature, humidity, wind_speed, cloud_cover. -/
structure WeatherSnapshot where
  temperature : ℚ
  humidity : ℚ
  wind_speed : ℚ
  cloud_cover : ℚ

/-- The fixed default snapshot of `get_weather_data` (lines 124-129). -/
def defaultWeather : WeatherSnapshot :=
  { temperature := 25, humidity := 60, wind_speed := 5, cloud_cover := 50 }

/-- Derived irradiance, `predictor.py` line 155:
`max(0, 1000 * (1 - cloud_cover / 100))`. -/
def solarIrradiance (cloud_cover : ℚ) : ℚ :=
  max 0 (1000 * (1 - cloud_cover / 100))

/-- One row of the training CSV after `pd.read_csv` + `to_datetime`
(columns used by `train`): datetime, temperature, humidity,
solar_irradiance, wind_speed and the label energy_demand. -/
structure TrainingRecord where
  datetime : Int
  temperature : ℚ
  humidity : ℚ
  solar_irradiance : ℚ
  wind_speed : ℚ
  energy_demand : ℚ

/-- A named row of engineered features; one DataFrame row holding the nine
columns that `train` creates (lines 64-73) and the dict that `predict`
builds per forecast hour (lines 146-156). -/
structure FeatureRow where
  hour : ℚ
  day_of_week : ℚ
  month : ℚ
  is_weekend : ℚ
  season : ℚ
  temperature : ℚ
  humidity : ℚ
  wind_speed : ℚ
  solar_irradiance : ℚ

/-- The fixed feature-name list `self.features` (lines 72-73). -/
def featureNames : List String :=
  ["hour", "day_of_week", "month", "is_weekend", "season",
   "temperature", "humidity", "solar_irradiance", "wind_speed"]

/-- Column access by name on a feature row, modelling `df[name]`. -/
def FeatureRow.col (r : FeatureRow) (name : String) : ℚ :=
  if name = "hour" then r.hour
  else if name = "day_of_week" then r.day_of_week
  else if name = "month" then r.month
  else if name = "is_weekend" then r.is_weekend
  else if name = "season" then r.season
  else if name = "temperature" then r.temperature
  else if name = "humidity" then r.humidity
  else if name = "wind_speed" then r.wind_speed
  else if name = "solar_irradiance" then r.solar_irradiance
  else 0

/-- Column selection `df[features]`: read one row in the given column
order. -/
def selectColumns (r : FeatureRow) (names : List String) : List ℚ :=
  names.map (fun n => FeatureRow.col r n)

/-- Feature engineering of `EnergyPredictor.train`, lines 64-73: the time
features are derived from the `datetime` column, the weather columns are
carried over from the training record unchanged. -/
def trainFeatureRow (rec0 : TrainingRecord) : FeatureRow :=
  { hour := (DateTime.hour rec0.datetime : ℚ)
  , day_of_week := (DateTime.dayofweek rec0.datetime : ℚ)
  , month := (DateTime.month rec0.datetime : ℚ)
  , is_weekend :=
      if DateTime.dayofweek rec0.datetime = 5 ∨ DateTime.dayofweek rec0.datetime = 6
      then 1 else 0
  , season := ((DateTime.month rec0.datetime % 12 / 3 + 1 : Int) : ℚ)
  , temperature := rec0.temperature
  , humidity := rec0.humidity
  , wind_speed := rec0.wind_speed
  , solar_irradiance := rec0.solar_irradiance }

/-- Feature engineering of `EnergyPredictor.predict`, lines 146-156: the
dict built for one forecast hour from the forecast time and the single
weather snapshot of the call. -/
def predictFeatureRow (t : Int) (w : WeatherSnapshot) : FeatureRow :=
  { hour := (DateTime.hour t : ℚ)
  , day_of_week := (DateTime.dayofweek t : ℚ)
  , month := (DateTime.month t : ℚ)
  , is_weekend :=
      if DateTime.dayofweek t = 5 ∨ DateTime.dayofweek t = 6
      then 1 else 0
  , season := ((DateTime.month t % 12 / 3 + 1 : Int) : ℚ)
  , temperature := w.temperature
  , humidity := w.humidity
  , wind_speed := w.wind_speed
  , solar_irradiance := solarIrradiance w.cloud_cover }

/-- Fitted parameters of a `StandardScaler` (per-column mean and scale). -/
structure ScalerParams where
  mean : List ℚ
  scale : List ℚ

/-- `StandardScaler.transform`: per column, `(x - mean) / scale`. -/
def scalerTransform (p : ScalerParams) (x : List (List ℚ)) : List (List ℚ) :=
  x.map (fun row => (row.zip (p.mean.zip p.scale)).map (fun q => (q.1 - q.2.1) / q.2.2))

/-- `sklearn.metrics.r2_score`: one minus the ratio of residual to total
sum of squares. -/
def r2_score (y_true y_pred : List ℚ) : ℚ :=
  let m := y_true.sum / (y_true.length : ℚ)
  let ss_res := ((y_true.zip y_pred).map (fun q => (q.1 - q.2) ^ 2)).sum
  let ss_tot := (y_true.map (fun v => (v - m) ^ 2)).sum
  1 - ss_res / ss_tot

/-- The train/test partition produced by `train_test_split` on line 78. -/
structure Split where
  X_train : List (List ℚ)
  X_test : List (List ℚ)
  y_train : List ℚ
  y_test : List ℚ

/-- The sklearn calls `train` makes but does not implement: fitting the
scaler on a matrix, and fitting each of the two candidate regressors
(`RandomForestRegressor(200, 42)` and `GradientBoostingRegressor(200, 42)`)
on a matrix and label vector, yielding a trained predictor function. -/
structure SkLearn where
  fitScaler : List (List ℚ) → ScalerParams
  fitRF : List (List ℚ) → List ℚ → (List ℚ → ℚ)
  fitGB : List (List ℚ) → List ℚ → (List ℚ → ℚ)

/-- Best-candidate selection of `train` lines 84-95: `best_score` starts
at `-inf` (modelled as `⊥ : WithBot ℚ`), `best_model` starts at `None`,
and a candidate replaces the current best exactly when its score is
strictly greater (`if score > best_score`). -/
def selectBest (scored : List (String × ℚ)) : Option String × WithBot ℚ :=
  scored.foldl
    (fun best c => if (c.2 : WithBot ℚ) > best.2 then (some c.1, (c.2 : WithBot ℚ)) else best)
    (none, ⊥)

/-- Result of one training run (lines 77-103): the fitted scaler, the
scored candidates in iteration order, and the selected best. -/
structure TrainOutcome where
  scaler : ScalerParams
  scored : List (String × ℚ)
  bestName : Option String
  bestScore : WithBot ℚ

/-- The training pipeline of `EnergyPredictor.train` from the split
onwards (lines 80-103): fit the scaler on the train partition, transform
both partitions with it, fit both candidates on the scaled train
partition, score each with R2 on the scaled held-out test partition, and
select the best by strict comparison in iteration order
(`random_forest` first, then `gradient_boosting`, the insertion order of
`self.models`). -/
def trainOnSplit (sk : SkLearn) (s : Split) : TrainOutcome :=
  let params := sk.fitScaler s.X_train
  let xTrainScaled := scalerTransform params s.X_train
  let xTestScaled := scalerTransform params s.X_test
  let fitted : List (String × (List ℚ → ℚ)) :=
    [("random_forest", sk.fitRF xTrainScaled s.y_train),
     ("gradient_boosting", sk.fitGB xTrainScaled s.y_train)]
  let scored := fitted.map (fun c => (c.1, r2_score s.y_test (xTestScaled.map c.2)))
  let b := selectBest scored
  { scaler := params, scored := scored, bestName := b.1, bestScore := b.2 }

/-- The persisted artifact `best_model.pkl` (lines 99-103): model, scaler
and the ordered feature list, serialized together. -/
structure SavedBundle where
  model : List ℚ → ℚ
  scaler : ScalerParams
  features : List String

/-- Mutable fields of `EnergyPredictor` relevant to prediction:
the configured path and the model / scaler / features slots. -/
structure PredictorState where
  model_path : String
  best_model : Option (List ℚ → ℚ)
  scaler : ScalerParams
  features : List String

/-- `os.path.join(self.model_path, "best_model.pkl")` (line 107). -/
def modelFile (path : String) : String :=
  if path = "" then "best_model.pkl"
  else if path.endsWith "/" then path ++ "best_model.pkl"
  else path ++ "/" ++ "best_model.pkl"

/-- `EnergyPredictor.load_model` (lines 105-114). The disk content at the
configured path is the `disk` argument (`none` = artifact absent). The
returned pair is the call outcome together with the predictor state after
the call. -/
def load_model (st : PredictorState) (disk : Option SavedBundle) :
    Except String Unit × PredictorState :=
  match disk with
  | some saved =>
      (Except.ok (),
       { st with best_model := some saved.model, scaler := saved.scaler,
                 features := saved.features })
  | none => (Except.error ("Model not found at " ++ modelFile st.model_path), st)

/-- `EnergyPredictor.get_weather_data` (lines 116-129). `hasKey` is the
truth of `self.weather_api and self.weather_api.api_key` (the constructor
only builds a `WeatherAPI` when a key is configured); `api` is the result
of the external call `get_current_weather`, which returns `None` on any
transport error, non-2xx response or malformed payload (lines 24-44).
When no key is configured the provider is never invoked and `api` is
ignored. -/
def get_weather_data (hasKey : Bool) (api : Option WeatherSnapshot) : WeatherSnapshot :=
  if hasKey then
    match api with
    | some w => w
    | none => defaultWeather
  else defaultWeather

/-- The weather dict attached to every returned forecast point
(lines 173-178): temperature, humidity and wind_speed copied from the
snapshot, plus the derived `solar_irradiance` (the loop variable
`features['solar_irradiance']`, which is the same derived value for every
iteration since the snapshot is fixed). Modelled as the key-value list of
the Python dict. -/
def weatherInfo (w : WeatherSnapshot) : List (String × ℚ) :=
  [("temperature", w.temperature), ("humidity", w.humidity),
   ("wind_speed", w.wind_speed), ("solar_irradiance", solarIrradiance w.cloud_cover)]

/-- One element of the list `predict` returns (lines 170-179): the
forecast timestamp (the `isoformat` string rendering is injective and
order-preserving, so the timestamp itself is kept), the predicted demand
and the attached weather dict. -/
structure ForecastPoint where
  datetime : Int
  predicted_demand : ℚ
  weather : List (String × ℚ)

/-- The forecast construction of `predict` once a model is available
(lines 139-181): build the 24 hourly feature rows, select the persisted
feature order, scale, predict each row with the loaded model, and emit
one annotated point per prediction via `enumerate`. -/
def runForecast (st : PredictorState) (t0 : Int) (w : WeatherSnapshot) :
    List ForecastPoint :=
  let rows := (List.range 24).map (fun i : ℕ => predictFeatureRow (t0 + 3600 * (i : Int)) w)
  let x := rows.map (fun r => selectColumns r st.features)
  let xScaled := scalerTransform st.scaler x
  let preds := xScaled.map (st.best_model.getD (fun _ => 0))
  preds.enum.map (fun ip =>
    { datetime := t0 + 3600 * (ip.1 : Int)
    , predicted_demand := ip.2
    , weather := weatherInfo w })

/-- `EnergyPredictor.predict` (lines 131-181): lazily load the model when
`best_model` is `None` (propagating the load failure), fetch the weather
once, and build the 24-point forecast. -/
def predict (st : PredictorState) (disk : Option SavedBundle) (t0 : Int)
    (hasKey : Bool) (api : Option WeatherSnapshot) :
    Except String (List ForecastPoint) :=
  match (match st.best_model with
         | none => load_model st disk
         | some _ => (Except.ok (), st)) with
  | (Except.error e, _) => Except.error e
  | (Except.ok _, st2) =>
      Except.ok (runForecast st2 t0 (get_weather_data hasKey api))

/-- Placeholder point used only as the default of list indexing. -/
def junkPoint : ForecastPoint := { datetime := 0, predicted_demand := 0, weather := [] }

/-! Helper lemmas about the forecast construction. -/

lemma runForecast_length (st : PredictorState) (t0 : Int) (w : WeatherSnapshot) :
    (runForecast st t0 w).length = 24 := by
  simp only [runForecast, scalerTransform, List.length_map, List.enum_length, List.length_range]

lemma runForecast_getElem_datetime (st : PredictorState) (t0 : Int) (w : WeatherSnapshot)
    (i : ℕ) (h : i < (runForecast st t0 w).length) :
    ((runForecast st t0 w)[i]).datetime = t0 + 3600 * (i : Int) := by
  simp only [runForecast, scalerTransform, List.getElem_map, List.getElem_enum]

lemma runForecast_getD_datetime (st : PredictorState) (t0 : Int) (w : WeatherSnapshot)
    (i : ℕ) (h : i < 24) :
    ((runForecast st t0 w).getD i junkPoint).datetime = t0 + 3600 * (i : Int) := by
  have hl : i < (runForecast st t0 w).length := by rw [runForecast_length]; exact h
  rw [List.getD_eq_getElem _ _ hl, runForecast_getElem_datetime]

lemma runForecast_pairwise (st : PredictorState) (t0 : Int) (w : WeatherSnapshot) :
    (runForecast st t0 w).Pairwise (fun a b => a.datetime < b.datetime) := by
  rw [List.pairwise_iff_getElem]
  intro i j hi hj hij
  show ((runForecast st t0 w)[i]).datetime < ((runForecast st t0 w)[j]).datetime
  rw [runForecast_getElem_datetime st t0 w i hi, runForecast_getElem_datetime st t0 w j hj]
  omega

lemma runForecast_hourly_spaced (st : PredictorState) (t0 : Int) (w : WeatherSnapshot) :
    List.Chain' (fun a b => b.datetime = a.datetime + 3600) (runForecast st t0 w) := by
  rw [List.chain'_iff_get]
  intro i h
  simp only [List.get_eq_getElem, runForecast_getElem_datetime]
  push_cast
  ring

lemma runForecast_weather_const (st : PredictorState) (t0 : Int) (w : WeatherSnapshot) :
    (runForecast st t0 w).map ForecastPoint.weather = List.replicate 24 (weatherInfo w) := by
  simp only [runForecast, List.map_map]
  rw [show (ForecastPoint.weather ∘ fun ip : ℕ × ℚ =>
      ({ datetime := t0 + 3600 * (ip.1 : Int), predicted_demand := ip.2,
         weather := weatherInfo w } : ForecastPoint)) = fun _ => weatherInfo w from rfl]
  rw [List.map_const']
  simp only [scalerTransform, List.enum_length, List.length_map, List.length_range]

/-! Claim theorems. -/

/-- C1: for every (timestamp, weather snapshot) pair, the feature row the
training path builds (from the training record carrying that snapshot's
weather values, with `solar_irradiance` the value derived from its cloud
cover) and the feature row the inference path builds are element-for-element
identical when both are read in the shared feature order `featureNames`:
the five time features are computed by the same formulas from the
timestamp, and temperature, humidity, wind_speed and solar_irradiance are
carried over unchanged, even though `trainFeatureRow` and
`predictFeatureRow` are separate translations of the two code paths. -/
theorem train_predict_feature_parity (t : Int) (w : WeatherSnapshot) (d : ℚ) :
    selectColumns
        (trainFeatureRow
          { datetime := t, temperature := w.temperature, humidity := w.humidity,
            solar_irradiance := solarIrradiance w.cloud_cover,
            wind_speed := w.wind_speed, energy_demand := d }) featureNames
      = selectColumns (predictFeatureRow t w) featureNames ∧
    trainFeatureRow
        { datetime := t, temperature := w.temperature, humidity := w.humidity,
          solar_irradiance := solarIrradiance w.cloud_cover,
          wind_speed := w.wind_speed, energy_demand := d }
      = predictFeatureRow t w ∧
    (predictFeatureRow t w).temperature = w.temperature ∧
    (predictFeatureRow t w).humidity = w.humidity ∧
    (predictFeatureRow t w).wind_speed = w.wind_speed :=
  ⟨rfl, rfl, rfl, rfl, rfl⟩

/-- C3: calling `predict` before any successful load or train
(`best_model = None`) with no persisted artifact at the configured path
fails with the model-not-found error and yields no forecast points at
all. -/
theorem predict_unloaded_no_artifact_fails (path : String) (sc : ScalerParams)
    (fs : List String) (t0 : Int) (hasKey : Bool) (api : Option WeatherSnapshot) :
    predict { model_path := path, best_model := none, scaler := sc, features := fs }
        none t0 hasKey api
      = Except.error ("Model not found at " ++ modelFile path) ∧
    (predict { model_path := path, best_model := none, scaler := sc, features := fs }
        none t0 hasKey api).toOption = none :=
  ⟨rfl, rfl⟩

/-- C10: when the artifact is absent, `load_model` raises its
model-not-found error and mutates nothing: the state after the failed call
is exactly the state before it, field by field. -/
theorem load_model_absent_atomic (st : PredictorState) :
    (load_model st none).1 = Except.error ("Model not found at " ++ modelFile st.model_path) ∧
    (load_model st none).2 = st ∧
    (load_model st none).2.best_model = st.best_model ∧
    (load_model st none).2.scaler = st.scaler ∧
    (load_model st none).2.features = st.features :=
  ⟨rfl, rfl, rfl, rfl, rfl⟩

/-- C7: the season feature equals `(month % 12) / 3 + 1` at both the
training and the inference site, lies in 1..4 for every calendar month
1..12, and maps December, January, February to 1, March to May to 2, June
to August to 3 and September to November to 4. -/
theorem season_formula_range (rec0 : TrainingRecord) (w : WeatherSnapshot) (m : Int) :
    (trainFeatureRow rec0).season = ((season (DateTime.month rec0.datetime) : Int) : ℚ) ∧
    (predictFeatureRow rec0.datetime w).season = (trainFeatureRow rec0).season ∧
    (1 ≤ m → m ≤ 12 → season m = m % 12 / 3 + 1 ∧ 1 ≤ season m ∧ season m ≤ 4) ∧
    (season 12 = 1 ∧ season 1 = 1 ∧ season 2 = 1) ∧
    (season 3 = 2 ∧ season 4 = 2 ∧ season 5 = 2) ∧
    (season 6 = 3 ∧ season 7 = 3 ∧ season 8 = 3) ∧
    (season 9 = 4 ∧ season 10 = 4 ∧ season 11 = 4) := by
  refine ⟨rfl, rfl, ?_, by decide, by decide, by decide, by decide⟩
  intro h1 h2
  refine ⟨rfl, ?_, ?_⟩ <;> · interval_cases m <;> decide

/-- Witness for C7 at month 7 and a concrete training record. -/
theorem season_formula_range_witness :
    (1:Int) ≤ 7 ∧ (7:Int) ≤ 12 ∧
    (season 7 = 7 % 12 / 3 + 1 ∧ 1 ≤ season 7 ∧ season 7 ≤ 4) :=
  ⟨by decide, by decide,
   (season_formula_range
      { datetime := 0, temperature := 25, humidity := 60,
        solar_irradiance := 500, wind_speed := 5, energy_demand := 100 }
      defaultWeather 7).2.2.1 (by decide) (by decide)⟩

/-- C8: the derived irradiance is monotonically non-increasing in cloud
cover, equals 1000 at cover 0, equals 0 at cover 100, and is never
negative on [0, 100]. -/
theorem solar_irradiance_monotone_bounds (c1 c2 c : ℚ) :
    (c1 ≤ c2 → solarIrradiance c2 ≤ solarIrradiance c1) ∧
    solarIrradiance 0 = 1000 ∧
    solarIrradiance 100 = 0 ∧
    (0 ≤ c → c ≤ 100 → 0 ≤ solarIrradiance c) := by
  refine ⟨?_, by norm_num [solarIrradiance], by norm_num [solarIrradiance], ?_⟩
  · intro h
    unfold solarIrradiance
    have hm : 1000 * (1 - c2 / 100) ≤ 1000 * (1 - c1 / 100) := by linarith
    exact max_le_max le_rfl hm
  · intro h1 h2
    unfold solarIrradiance
    exact le_max_left _ _

/-- Witness for C8 at cloud covers 10, 60 and 30. -/
theorem solar_irradiance_monotone_bounds_witness :
    (10:ℚ) ≤ 60 ∧ solarIrradiance 60 ≤ solarIrradiance 10 ∧
    (0:ℚ) ≤ 30 ∧ (30:ℚ) ≤ 100 ∧ 0 ≤ solarIrradiance 30 :=
  ⟨by decide, (solar_irradiance_monotone_bounds 10 60 30).1 (by decide),
   by decide, by decide,
   (solar_irradiance_monotone_bounds 10 60 30).2.2.2 (by decide) (by decide)⟩

/-- C2: whenever the model is loaded (first part), and whenever the lazy
load succeeds from a present artifact (second part), `predict` returns
exactly 24 forecast points whose timestamps are strictly increasing and
spaced exactly one hour (3600 s) apart, the i-th point at `t0 + 3600 * i`
and the first equal to the start time. -/
theorem predict_returns_24_hourly (path : String) (mdl : List ℚ → ℚ) (sc : ScalerParams)
    (fs : List String) (disk : Option SavedBundle) (t0 : Int) (hasKey : Bool)
    (api : Option WeatherSnapshot) (b : SavedBundle) :
    (∃ pts, predict { model_path := path, best_model := some mdl, scaler := sc, features := fs }
        disk t0 hasKey api = Except.ok pts ∧
      pts.length = 24 ∧
      (∀ i : Fin 24, (pts.getD (i : ℕ) junkPoint).datetime = t0 + 3600 * ((i : ℕ) : Int)) ∧
      pts.Pairwise (fun a c => a.datetime < c.datetime) ∧
      List.Chain' (fun a c => c.datetime = a.datetime + 3600) pts ∧
      (pts.getD 0 junkPoint).datetime = t0) ∧
    (∃ pts, predict { model_path := path, best_model := none, scaler := sc, features := fs }
        (some b) t0 hasKey api = Except.ok pts ∧
      pts.length = 24 ∧
      (∀ i : Fin 24, (pts.getD (i : ℕ) junkPoint).datetime = t0 + 3600 * ((i : ℕ) : Int)) ∧
      pts.Pairwise (fun a c => a.datetime < c.datetime) ∧
      List.Chain' (fun a c => c.datetime = a.datetime + 3600) pts ∧
      (pts.getD 0 junkPoint).datetime = t0) := by
  constructor
  · refine ⟨_, rfl, runForecast_length _ _ _, ?_, runForecast_pairwise _ _ _,
      runForecast_hourly_spaced _ _ _, ?_⟩
    · intro i
      exact runForecast_getD_datetime _ _ _ (i : ℕ) i.isLt
    · have h0 := runForecast_getD_datetime
        { model_path := path, best_model := some mdl, scaler := sc, features := fs }
        t0 (get_weather_data hasKey api) 0 (by norm_num)
      simpa using h0
  · refine ⟨_, rfl, runForecast_length _ _ _, ?_, runForecast_pairwise _ _ _,
      runForecast_hourly_spaced _ _ _, ?_⟩
    · intro i
      exact runForecast_getD_datetime _ _ _ (i : ℕ) i.isLt
    · have h0 := runForecast_getD_datetime
        { model_path := path, best_model := some b.model, scaler := b.scaler,
          features := b.features }
        t0 (get_weather_data hasKey api) 0 (by norm_num)
      simpa using h0

/-- C4: when no API key is configured the external provider is never
invoked (the call result is irrelevant) and the weather used is exactly
the fixed default snapshot {25, 60, 5, 50}; when the provider call fails
the same default is used; in both cases `predict` on a loaded model still
returns 24 points, all annotated with the default-derived weather dict,
and no weather error is surfaced (the result is `ok`, not `error`). -/
theorem weather_fallback_default (path : String) (mdl : List ℚ → ℚ) (sc : ScalerParams)
    (fs : List String) (disk : Option SavedBundle) (t0 : Int)
    (api api2 : Option WeatherSnapshot) :
    get_weather_data false api = defaultWeather ∧
    get_weather_data false api = get_weather_data false api2 ∧
    get_weather_data true none = defaultWeather ∧
    defaultWeather.temperature = 25 ∧ defaultWeather.humidity = 60 ∧
    defaultWeather.wind_speed = 5 ∧ defaultWeather.cloud_cover = 50 ∧
    (∃ pts, predict { model_path := path, best_model := some mdl, scaler := sc, features := fs }
        disk t0 false api = Except.ok pts ∧
      pts.length = 24 ∧
      pts.map ForecastPoint.weather = List.replicate 24 (weatherInfo defaultWeather)) ∧
    (∃ pts, predict { model_path := path, best_model := some mdl, scaler := sc, features := fs }
        disk t0 true none = Except.ok pts ∧
      pts.length = 24 ∧
      pts.map ForecastPoint.weather = List.replicate 24 (weatherInfo defaultWeather)) :=
  ⟨rfl, rfl, rfl, rfl, rfl, rfl, rfl,
   ⟨_, rfl, runForecast_length _ _ _, runForecast_weather_const _ _ defaultWeather⟩,
   ⟨_, rfl, runForecast_length _ _ _, runForecast_weather_const _ _ defaultWeather⟩⟩

/-- C5 (amended): every forecast point of a `predict` call on a loaded
model carries, alongside its predicted value, one shared weather dict
derived from the single snapshot fetched once for that call: its
temperature, humidity and wind_speed are the snapshot's values and its
solar_irradiance is derived from the snapshot's cloud cover; the same
dict is attached to all 24 points. (The emitted dict does not contain
the raw cloud_cover field itself, see the counterexample.) -/
theorem forecast_points_weather_info (path : String) (mdl : List ℚ → ℚ) (sc : ScalerParams)
    (fs : List String) (disk : Option SavedBundle) (t0 : Int) (hasKey : Bool)
    (api : Option WeatherSnapshot) :
    ∃ pts, predict { model_path := path, best_model := some mdl, scaler := sc, features := fs }
        disk t0 hasKey api = Except.ok pts ∧
      pts.length = 24 ∧
      pts.map ForecastPoint.weather
        = List.replicate 24 (weatherInfo (get_weather_data hasKey api)) ∧
      weatherInfo (get_weather_data hasKey api)
        = [("temperature", (get_weather_data hasKey api).temperature),
           ("humidity", (get_weather_data hasKey api).humidity),
           ("wind_speed", (get_weather_data hasKey api).wind_speed),
           ("solar_irradiance", solarIrradiance (get_weather_data hasKey api).cloud_cover)] :=
  ⟨_, rfl, runForecast_length _ _ _, runForecast_weather_const _ _ _, rfl⟩

/-- Identity scaler (mean 0, scale 1 per column) for the concrete runs. -/
def cScaler : ScalerParams :=
  { mean := List.replicate 9 0, scale := List.replicate 9 1 }

/-- A concrete loaded predictor state used in the C5 counterexample. -/
def cState : PredictorState :=
  { model_path := "models/", best_model := some (fun r => r.sum), scaler := cScaler,
    features := featureNames }

/-- C5 counterexample: on a concrete successful 24-point forecast, the
weather dict attached to the first point contains no `cloud_cover` entry
at all, although the snapshot that produced the forecast has
`cloud_cover = 50`; so the points do not carry the weather snapshot
`{temperature, humidity, wind_speed, cloud_cover}` as claimed — they
carry a dict with derived `solar_irradiance` in place of `cloud_cover`. -/
theorem forecast_points_weather_info_counterexample :
    ((Except.toOption (predict cState none 0 false none)).getD []).length = 24 ∧
    ((((Except.toOption (predict cState none 0 false none)).getD []).getD 0
        junkPoint).weather).lookup "cloud_cover" = none ∧
    (get_weather_data false none).cloud_cover = 50 := by
  refine ⟨?_, ?_, rfl⟩
  · exact runForecast_length cState 0 (get_weather_data false none)
  · decide

/-- Two-candidate instance of the selection loop: the first candidate
always replaces the `-inf` start, and the second replaces the first
exactly when its score is strictly greater. -/
lemma selectBest_pair (n1 n2 : String) (s1 s2 : ℚ) :
    selectBest [(n1, s1), (n2, s2)]
      = (some (if s1 < s2 then n2 else n1), ((if s1 < s2 then s2 else s1 : ℚ) : WithBot ℚ)) := by
  unfold selectBest
  simp only [List.foldl_cons, List.foldl_nil]
  rw [if_pos (WithBot.bot_lt_coe s1)]
  by_cases h : s1 < s2
  · rw [if_pos (WithBot.coe_lt_coe.mpr h), if_pos h, if_pos h]
  · rw [if_neg (fun hc => h (WithBot.coe_lt_coe.mp hc)), if_neg h, if_neg h]

/-- C6: over the candidates in their fixed iteration order
(`random_forest` first, then `gradient_boosting`), training selects the
candidate with the strictly higher held-out R2 score; the later candidate
replaces the current best exactly when its score is strictly greater, so
on a tie the first-seen candidate is kept. -/
theorem train_selects_strictly_best (sk : SkLearn) (s : Split) :
    ∃ sRF sGB : ℚ,
      (trainOnSplit sk s).scored = [("random_forest", sRF), ("gradient_boosting", sGB)] ∧
      (trainOnSplit sk s).bestName
        = some (if sRF < sGB then "gradient_boosting" else "random_forest") ∧
      (trainOnSplit sk s).bestScore = ((if sRF < sGB then sGB else sRF : ℚ) : WithBot ℚ) := by
  refine ⟨_, _, rfl, ?_, ?_⟩
  · show (selectBest [("random_forest", _), ("gradient_boosting", _)]).1 = _
    rw [selectBest_pair]
  · show (selectBest [("random_forest", _), ("gradient_boosting", _)]).2 = _
    rw [selectBest_pair]

/-- C9: the scaler is fitted on the train partition only and applied to
both partitions; changing the held-out partition (and the labels) while
keeping the train partition fixed cannot change the fitted scaler
parameters (no leakage); and each candidate is fitted on the scaled train
partition and scored with R2 on the scaled held-out test partition. -/
theorem scaler_no_leakage (sk : SkLearn) (s s2 : Split) :
    (trainOnSplit sk s).scaler = sk.fitScaler s.X_train ∧
    (s.X_train = s2.X_train → (trainOnSplit sk s).scaler = (trainOnSplit sk s2).scaler) ∧
    (trainOnSplit sk s).scored =
      [("random_forest",
        r2_score s.y_test
          ((scalerTransform (sk.fitScaler s.X_train) s.X_test).map
            (sk.fitRF (scalerTransform (sk.fitScaler s.X_train) s.X_train) s.y_train))),
       ("gradient_boosting",
        r2_score s.y_test
          ((scalerTransform (sk.fitScaler s.X_train) s.X_test).map
            (sk.fitGB (scalerTransform (sk.fitScaler s.X_train) s.X_train) s.y_train)))] := by
  refine ⟨rfl, ?_, rfl⟩
  intro h
  show sk.fitScaler s.X_train = sk.fitScaler s2.X_train
  rw [h]

/-- Concrete sklearn stand-ins whose fitted scaler genuinely depends on
its input, for the C9 witness. -/
def cSk : SkLearn :=
  { fitScaler := fun x => { mean := [(x.length : ℚ)], scale := [1] }
  , fitRF := fun _ y => fun r => r.sum + y.sum
  , fitGB := fun _ _ => fun _ => 1 }

/-- A concrete split. -/
def cSplitA : Split :=
  { X_train := [[1], [2]], X_test := [[3]], y_train := [1, 2], y_test := [3] }

/-- The same train partition as `cSplitA` with a different held-out
partition and labels. -/
def cSplitB : Split :=
  { X_train := [[1], [2]], X_test := [[9]], y_train := [5, 6], y_test := [7] }

/-- Witness for C9: two splits agreeing on the train partition produce
the same fitted scaler. -/
theorem scaler_no_leakage_witness :
    cSplitA.X_train = cSplitB.X_train ∧
    (trainOnSplit cSk cSplitA).scaler = (trainOnSplit cSk cSplitB).scaler :=
  ⟨rfl, (scaler_no_leakage cSk cSplitA cSplitB).2.1 rfl⟩

end Microgrid
